import Mathlib

/-!
Verification of the restartable concurrent worker (`BaseJobRunner`) and the
CLI orchestrator (`Cli`) of `parallel_proc_runner_base.py`.

The worker's mutable attributes become a Lean structure; the run-body
(`BaseJobRunner.run`, executed on the spawned thread) becomes a function from
the pre-run state to the post-run state together with a trace of the
observable events it performs, in order: blocking on the start gate,
invoking the start callback, entering the job body, and invoking the stop
callback.  Each trace entry records the worker state at the moment the event
happens, so ordering claims ("the stop callback observes the completion
signal still unset") become statements about the trace.  The job body is
modelled by its two possible behaviours: returning a `(result, output)` pair
normally, or raising an exception with a type name and message (the `except`
branch of the source reads the worker's `output` field as it stood when the
fault occurred).  Totality of `run` embeds the source's catch-all `except`:
a fault never escapes the run-body.

The CLI orchestrator appends one `(name, result_message, output)` record per
worker from its stop callback; appends happen in the order the worker
threads finish, which the scheduler - not the program - chooses.  The result
list is therefore modelled as a function of a completion order, a list of
worker indices.
-/

namespace ParallelProcRunner

/-- Substring test on lists of characters: Python's `needle in hay`
restricted to the character lists of the two strings. -/
def listIsInfixOf : List Char → List Char → Bool
  | needle, [] => needle.isEmpty
  | needle, c :: rest => needle.isPrefixOf (c :: rest) || listIsInfixOf needle rest

/-- Python's substring containment `needle in hay` on strings. -/
def strContains (hay needle : String) : Bool :=
  listIsInfixOf needle.toList hay.toList

/-- The mutable state of one `BaseJobRunner` object (source lines 39-58).
The two callbacks and the gating event are either `none` (Python `None`) or
present; the constructor installs `dummy_method` - a present, do-nothing
callback - for both callbacks, and no gating event. -/
structure BaseJobRunner where
  name : String
  start_gating_event : Option Unit
  start_callback : Option Unit
  stop_callback : Option Unit
  stop_event : Bool
  running : Bool
  result : Int
  output : String
  result_message : String
  setup_kwargs : List (String × String)
deriving DecidableEq

/-- `BaseJobRunner.__init__(name)` (source lines 39-58): no gating event,
both callbacks present (`dummy_method`), stop event unset, not running,
result sentinel `-1`, empty output and result message, empty kwargs. -/
def init (name : String) : BaseJobRunner :=
  { name := name
    start_gating_event := none
    start_callback := some ()
    stop_callback := some ()
    stop_event := false
    running := false
    result := -1
    output := ""
    result_message := ""
    setup_kwargs := [] }

/-- `set_start_gating_event` (source lines 63-64). -/
def set_start_gating_event (g : Option Unit) (s : BaseJobRunner) : BaseJobRunner :=
  { s with start_gating_event := g }

/-- `set_start_callback` (source lines 66-67). -/
def set_start_callback (c : Option Unit) (s : BaseJobRunner) : BaseJobRunner :=
  { s with start_callback := c }

/-- `set_stop_callback` (source lines 69-70). -/
def set_stop_callback (c : Option Unit) (s : BaseJobRunner) : BaseJobRunner :=
  { s with stop_callback := c }

/-- `set_args(**kwargs)` (source lines 72-73). -/
def set_args (kw : List (String × String)) (s : BaseJobRunner) : BaseJobRunner :=
  { s with setup_kwargs := kw }

/-- `terminate` of the base class (source lines 121-123) only prints a
message; it changes no worker state. -/
def terminate (s : BaseJobRunner) : BaseJobRunner := s

/-- `start()` (source lines 75-82): reset `result`/`output`/`result_message`
to their sentinel/empty values, clear `stop_event` if it is set, then spawn
the thread that executes the run-body.  The spawned execution is modelled
separately by `run`, applied to the state `start` returns. -/
def start (s : BaseJobRunner) : BaseJobRunner :=
  { s with
    result := -1
    output := ""
    result_message := ""
    stop_event := if s.stop_event then false else s.stop_event }

/-- The two possible behaviours of a job body (the overridable `job()`
method): return a `(result, output)` pair, or raise an exception whose type
name and message are recorded. -/
inductive JobBehavior where
  | ret (result : Int) (output : String) : JobBehavior
  | exc (ty msg : String) : JobBehavior
deriving DecidableEq

/-- The default, un-overridden `job()` body (source lines 113-119): it
returns result code `1` with output `"Override this method"`. -/
def job : JobBehavior := JobBehavior.ret 1 "Override this method"

/-- Observable events of one execution of the run-body. -/
inductive RunEvent where
  | gateWait : RunEvent
  | onStart (name : String) : RunEvent
  | jobRun : RunEvent
  | onStop (name message output : String) : RunEvent
deriving DecidableEq

/-- Recognizes a start-callback invocation in a trace. -/
def isOnStart : RunEvent → Bool
  | RunEvent.onStart _ => true
  | _ => false

/-- Recognizes a stop-callback invocation in a trace. -/
def isOnStop : RunEvent → Bool
  | RunEvent.onStop _ _ _ => true
  | _ => false

/-- The `try` block of the run-body (source lines 96-105).  On a normal
return, `result` and `output` are assigned from the job's pair and
`result_message` becomes `"Success"` for code `0` and `"FAIL (code)"`
otherwise.  On a fault, the tuple assignment never happens (`result` and
`output` keep their prior values), `result_message` becomes
`"FAIL (Exception)"`, and the exception's type name and message are appended
to `output` after a newline. -/
def tryJob (j : JobBehavior) (s : BaseJobRunner) : BaseJobRunner :=
  match j with
  | JobBehavior.ret r out =>
      { s with
        result := r
        output := out
        result_message := if r = 0 then "Success" else "FAIL (" ++ toString r ++ ")" }
  | JobBehavior.exc ty msg =>
      { s with
        result_message := "FAIL (Exception)"
        output := s.output ++ "\n" ++ ty ++ ": " ++ msg }

/-- The run-body `BaseJobRunner.run` (source lines 84-111), executed on the
spawned thread.  It returns the post-run state together with the ordered
trace of observable events, each paired with the worker state at the moment
it happens: set `running := false`; block on the gating event if one is
configured; set `running := true`; invoke the start callback if present;
enter the job body (`tryJob`); and in the `finally` block set
`running := false`, invoke the stop callback if present, and set
`stop_event`. -/
def run (j : JobBehavior) (s0 : BaseJobRunner) :
    BaseJobRunner × List (BaseJobRunner × RunEvent) :=
  let s1 := { s0 with running := false }
  let gateTr : List (BaseJobRunner × RunEvent) :=
    match s1.start_gating_event with
    | none => []
    | some _ => [(s1, RunEvent.gateWait)]
  let s2 := { s1 with running := true }
  let startTr : List (BaseJobRunner × RunEvent) :=
    match s2.start_callback with
    | none => []
    | some _ => [(s2, RunEvent.onStart s2.name)]
  let s3 := tryJob j s2
  let s4 := { s3 with running := false }
  let stopTr : List (BaseJobRunner × RunEvent) :=
    match s4.stop_callback with
    | none => []
    | some _ => [(s4, RunEvent.onStop s4.name s4.result_message s4.output)]
  let s5 := { s4 with stop_event := true }
  (s5, gateTr ++ startTr ++ (s2, RunEvent.jobRun) :: stopTr)

/-- One runner handed to the `Cli` orchestrator, together with the behaviour
of its (overridden) job body. -/
structure CliRunner where
  runner : BaseJobRunner
  jobBody : JobBehavior
deriving DecidableEq

/-- `Cli.__init__` registers itself as start and stop callback of every
runner (source lines 130-140): both callbacks become present. -/
def cli_register_callbacks (s : BaseJobRunner) : BaseJobRunner :=
  { s with start_callback := some (), stop_callback := some () }

/-- The `(name, result_message, output)` records that one runner's run
delivers to `Cli.call_when_runner_stops` (source lines 146-149): the
arguments of the stop-callback events of one full `start()`-then-run-body
execution of the runner after the `Cli` registered its callbacks. -/
def runner_stop_records (c : CliRunner) : List (String × String × String) :=
  (run c.jobBody (start (cli_register_callbacks c.runner))).2.filterMap fun p =>
    match p.2 with
    | RunEvent.onStop n m o => some (n, m, o)
    | _ => none

/-- `Cli.result_info_list` at the end of `Cli.run` (source lines 198-204):
each worker thread appends its record when it finishes, so the list is the
concatenation of the per-runner records in thread-completion order, given
here as the list `order` of runner indices. -/
def result_info_list (rs : List CliRunner) (order : List Nat) :
    List (String × String × String) :=
  order.flatMap fun i =>
    match rs.get? i with
    | some c => runner_stop_records c
    | none => []

/-- The `failing_jobs` list of `Cli.get_exit_return_code` (source lines
178-181): the names of the records whose `result_message` does not contain
the substring `"Success"`. -/
def failing_jobs (l : List (String × String × String)) : List String :=
  (l.filter fun t => !(strContains t.2.1 "Success")).map fun t => t.1

/-- `Cli.get_exit_return_code` (source lines 177-196): when any job failed
it calls `sys.exit(1)` - modelled as `some 1` - and otherwise it returns
Python `None`, modelled as `none`. -/
def get_exit_return_code (l : List (String × String × String)) : Option Nat :=
  if (failing_jobs l).length > 0 then some 1 else none

/-- The process exit code of `Cli.run` (source line 207): the `sys.exit(1)`
raised inside `get_exit_return_code` gives exit code 1; otherwise
`sys.exit(None)` gives exit code 0. -/
def cli_exit_code (rs : List CliRunner) (order : List Nat) : Nat :=
  match get_exit_return_code (result_info_list rs order) with
  | some c => c
  | none => 0

/-- The end-to-end scenario of the spec: three workers with no start gates
whose job bodies return result codes `(0, 1, 0)`. -/
def demo_runners : List CliRunner :=
  [⟨init "Process 0", JobBehavior.ret 0 "out0"⟩,
   ⟨init "Process 1", JobBehavior.ret 1 "out1"⟩,
   ⟨init "Process 2", JobBehavior.ret 0 "out2"⟩]

/-- C1: in every run whose job body returns normally with result code `r`
and output `out`, the run-body sets `result = r`, `output = out`, and
`result_message` to exactly `"Success"` when `r = 0` and to exactly
`"FAIL (r)"` for any nonzero `r`. -/
theorem run_normal_sets_result_fields (s : BaseJobRunner) (r : Int) (out : String) :
    (run (JobBehavior.ret r out) s).1.result = r
    ∧ (run (JobBehavior.ret r out) s).1.output = out
    ∧ (run (JobBehavior.ret r out) s).1.result_message
        = if r = 0 then "Success" else "FAIL (" ++ toString r ++ ")" := by
  refine ⟨?_, ?_, ?_⟩ <;> simp [run, tryJob]

/-- C2: in every run whose job body raises, the run-body completes anyway
(the `finally` block still runs and sets the stop event - the fault never
propagates out of the total function `run`), the result message becomes
exactly `"FAIL (Exception)"`, and the output becomes the output accumulated
before the fault followed by a newline, the exception's type name, `": "`,
and its message. -/
theorem run_fault_contained (s : BaseJobRunner) (ty msg : String) :
    (run (JobBehavior.exc ty msg) s).1.result_message = "FAIL (Exception)"
    ∧ (run (JobBehavior.exc ty msg) s).1.output = s.output ++ "\n" ++ ty ++ ": " ++ msg
    ∧ (run (JobBehavior.exc ty msg) s).1.stop_event = true := by
  refine ⟨?_, ?_, ?_⟩ <;> simp [run, tryJob]

/-- C6: every call to `start()`, whatever the worker's prior state, resets
`result` to the sentinel `-1`, `output` and `result_message` to `""`, and
leaves the stop event cleared; a worker started again after a completed run
therefore begins the new run with these fields independent of the previous
run's final values. -/
theorem start_resets_fields (s : BaseJobRunner) :
    (start s).result = -1 ∧ (start s).output = "" ∧ (start s).result_message = ""
    ∧ (start s).stop_event = false := by
  cases h : s.stop_event <;> simp [start, h]

/-- C9: the un-overridden job body returns result code 1 with output
`"Override this method"`, so a run of an unextended base worker always ends
with result message exactly `"FAIL (1)"`. -/
theorem default_job_run_fails (s : BaseJobRunner) :
    (run job s).1.result_message = "FAIL (1)"
    ∧ (run job s).1.result = 1
    ∧ (run job s).1.output = "Override this method" := by
  refine ⟨?_, ?_, ?_⟩ <;> simp [run, tryJob, job]
  decide

/-- C10: when the job body faults, the tuple assignment of the `try` block
never executes, so `result` keeps its prior value; in particular a run
started by `start()` whose job faults ends with `result` still the sentinel
`-1` written by `start()`. -/
theorem fault_keeps_sentinel_result (s : BaseJobRunner) (ty msg : String) :
    (run (JobBehavior.exc ty msg) (start s)).1.result = -1
    ∧ (run (JobBehavior.exc ty msg) s).1.result = s.result := by
  refine ⟨?_, ?_⟩ <;> simp [run, tryJob, start]

/-- C3: in every run of the run-body begun with the stop event unset,
whatever the job body does, the stop callback is invoked exactly once; at
the moment it is invoked `running` is already false and the stop event is
still unset; its arguments are the worker's name and the final result
message and output; and after the run the stop event is set.  Hence the
end-of-run order is: `running := false`, then the stop callback, then the
stop event. -/
theorem run_stop_callback_ordering (s : BaseJobRunner) (j : JobBehavior)
    (h1 : s.stop_event = false) (h2 : s.stop_callback = some ()) :
    ((run j s).2.filter fun p => isOnStop p.2).length = 1
    ∧ (∀ p ∈ (run j s).2, isOnStop p.2 = true →
         p.1.running = false ∧ p.1.stop_event = false
         ∧ p.2 = RunEvent.onStop (run j s).1.name (run j s).1.result_message
             (run j s).1.output)
    ∧ (run j s).1.stop_event = true := by
  refine ⟨?_, ?_, ?_⟩ <;>
    cases j <;> cases hg : s.start_gating_event <;> cases hc : s.start_callback <;>
      simp [run, tryJob, isOnStop, h1, h2, hg, hc]

/-- Witness for `run_stop_callback_ordering`: a freshly constructed worker
running a job that returns `(0, "out")`. -/
theorem run_stop_callback_ordering_witness :
    ((run (JobBehavior.ret 0 "out") (init "w")).2.filter fun p => isOnStop p.2).length = 1
    ∧ (∀ p ∈ (run (JobBehavior.ret 0 "out") (init "w")).2, isOnStop p.2 = true →
         p.1.running = false ∧ p.1.stop_event = false
         ∧ p.2 = RunEvent.onStop (run (JobBehavior.ret 0 "out") (init "w")).1.name
             (run (JobBehavior.ret 0 "out") (init "w")).1.result_message
             (run (JobBehavior.ret 0 "out") (init "w")).1.output)
    ∧ (run (JobBehavior.ret 0 "out") (init "w")).1.stop_event = true :=
  run_stop_callback_ordering (init "w") (JobBehavior.ret 0 "out") rfl rfl

/-- C4: for a worker with a configured start gate and a present start
callback, the run-body's trace begins with the gate wait - taken at a state
with `running` false, so while the gate is unsignaled nothing has happened:
no start callback, no job body - followed immediately by the start callback
invoked with the worker's name at a state with `running` true, followed by
the entry into the job body; the remainder of the trace holds no further
start-callback, gate-wait, or job-entry event.  A worker with no start gate
produces no gate-wait event at all. -/
theorem run_gate_ordering (s : BaseJobRunner) (j : JobBehavior) :
    (s.start_gating_event = some () → s.start_callback = some () →
      (run j s).2.take 3
        = [({ s with running := false }, RunEvent.gateWait),
           ({ s with running := true }, RunEvent.onStart s.name),
           ({ s with running := true }, RunEvent.jobRun)]
      ∧ ∀ p ∈ (run j s).2.drop 3, isOnStart p.2 = false ∧ p.2 ≠ RunEvent.gateWait
          ∧ p.2 ≠ RunEvent.jobRun)
    ∧ (s.start_gating_event = none →
        ∀ p ∈ (run j s).2, p.2 ≠ RunEvent.gateWait) := by
  constructor
  · intro hg hc
    constructor
    · cases j <;> cases hsc : s.stop_callback <;>
        simp [run, tryJob, hg, hc, hsc]
    · cases j <;> cases hsc : s.stop_callback <;>
        simp [run, tryJob, isOnStart, hg, hc, hsc]
  · intro hn
    cases j <;> cases hc : s.start_callback <;> cases hsc : s.stop_callback <;>
      simp [run, tryJob, hn, hc, hsc]

/-- A freshly constructed worker with a start gate installed, used to
witness the gated branch of `run_gate_ordering`. -/
def gated_worker : BaseJobRunner := set_start_gating_event (some ()) (init "w")

/-- Witness for `run_gate_ordering`: the gated branch at `gated_worker` and
the ungated branch at a freshly constructed worker. -/
theorem run_gate_ordering_witness :
    ((run (JobBehavior.ret 0 "o") gated_worker).2.take 3
        = [({ gated_worker with running := false }, RunEvent.gateWait),
           ({ gated_worker with running := true }, RunEvent.onStart gated_worker.name),
           ({ gated_worker with running := true }, RunEvent.jobRun)]
      ∧ ∀ p ∈ (run (JobBehavior.ret 0 "o") gated_worker).2.drop 3,
          isOnStart p.2 = false ∧ p.2 ≠ RunEvent.gateWait ∧ p.2 ≠ RunEvent.jobRun)
    ∧ (∀ p ∈ (run (JobBehavior.ret 0 "o") (init "w")).2, p.2 ≠ RunEvent.gateWait) :=
  ⟨(run_gate_ordering gated_worker (JobBehavior.ret 0 "o")).1 rfl rfl,
   (run_gate_ordering (init "w") (JobBehavior.ret 0 "o")).2 rfl⟩

/-- C7: the stop event is never touched by the run-body before its single
setting point at the very end - every state observed in the trace carries
the stop event exactly as it was on entry, and the post-run state has it
set - so a run begun with the stop event unset performs exactly one
unset-to-set transition, at the end of the run-body.  `start()` clears the
stop event, and every other worker operation (the three setters, `set_args`,
and the base `terminate`) leaves it untouched. -/
theorem stop_event_lifecycle (s : BaseJobRunner) (j : JobBehavior)
    (g c c' : Option Unit) (kw : List (String × String)) :
    (∀ p ∈ (run j s).2, (p.1 : BaseJobRunner).stop_event = s.stop_event)
    ∧ (run j s).1.stop_event = true
    ∧ (start s).stop_event = false
    ∧ (set_start_gating_event g s).stop_event = s.stop_event
    ∧ (set_start_callback c s).stop_event = s.stop_event
    ∧ (set_stop_callback c' s).stop_event = s.stop_event
    ∧ (set_args kw s).stop_event = s.stop_event
    ∧ (terminate s).stop_event = s.stop_event := by
  refine ⟨?_, ?_, ?_, rfl, rfl, rfl, rfl, rfl⟩
  · cases j <;> cases hg : s.start_gating_event <;> cases hc : s.start_callback <;>
      cases hsc : s.stop_callback <;>
        simp [run, tryJob, hg, hc, hsc]
  · cases j <;> simp [run, tryJob]
  · cases h : s.stop_event <;> simp [start, h]

/-- C5: after all workers have finished, the CLI exits with code 1 exactly
when some recorded result message does not contain the substring
`"Success"`, and with code 0 exactly when every recorded result message
contains it - for any collection of runners and any thread-completion
order. -/
theorem cli_exit_code_characterization (rs : List CliRunner) (order : List Nat) :
    (cli_exit_code rs order = 1
      ↔ ∃ t ∈ result_info_list rs order, strContains t.2.1 "Success" = false)
    ∧ (cli_exit_code rs order = 0
      ↔ ∀ t ∈ result_info_list rs order, strContains t.2.1 "Success" = true) := by
  have key : (0 < (failing_jobs (result_info_list rs order)).length)
      ↔ ∃ t ∈ result_info_list rs order, strContains t.2.1 "Success" = false := by
    simp [failing_jobs, List.length_pos, List.filter_eq_nil_iff]
  by_cases hex : ∃ t ∈ result_info_list rs order, strContains t.2.1 "Success" = false
  · have h1 : 0 < (failing_jobs (result_info_list rs order)).length := key.mpr hex
    have hc : cli_exit_code rs order = 1 := by
      simp [cli_exit_code, get_exit_return_code, h1]
    obtain ⟨t, ht, hf⟩ := hex
    refine ⟨⟨fun _ => ⟨t, ht, hf⟩, fun _ => hc⟩, ?_⟩
    rw [hc]
    constructor
    · intro h; exact absurd h (by decide)
    · intro hall; exact absurd (hall t ht) (by simp [hf])
  · have h1 : ¬ 0 < (failing_jobs (result_info_list rs order)).length :=
      fun h => hex (key.mp h)
    have hc : cli_exit_code rs order = 0 := by
      simp [cli_exit_code, get_exit_return_code, h1]
    push_neg at hex
    refine ⟨?_, ⟨fun _ => ?_, fun _ => hc⟩⟩
    · rw [hc]
      constructor
      · intro h; exact absurd h (by decide)
      · rintro ⟨t, ht, hf⟩; exact absurd hf (by simp [hex t ht])
    · intro t ht
      have := hex t ht
      simpa using this

/-- A completion order of three workers is one of the six permutations of
their indices. -/
theorem perm_012_cases (order : List Nat) (h : order.Perm [0, 1, 2]) :
    order = [0,1,2] ∨ order = [0,2,1] ∨ order = [1,0,2] ∨ order = [1,2,0]
    ∨ order = [2,0,1] ∨ order = [2,1,0] := by
  have hlen := h.length_eq
  match order, hlen with
  | [a, b, c], _ =>
    have ha : a ∈ ([0,1,2] : List Nat) := h.subset (by simp)
    have hb : b ∈ ([0,1,2] : List Nat) := h.subset (by simp)
    have hc : c ∈ ([0,1,2] : List Nat) := h.subset (by simp)
    simp only [List.mem_cons, List.not_mem_nil, or_false] at ha hb hc
    rcases ha with rfl | rfl | rfl <;> rcases hb with rfl | rfl | rfl <;>
      rcases hc with rfl | rfl | rfl <;>
        first
          | exact absurd h (by decide)
          | simp

/-- C8, counterexample: the claim asserts the results list is in the
workers' construction order with the middle entry `"FAIL (1)"`, but the CLI
appends a record when the corresponding worker thread finishes, and with no
start gates the scheduler may finish the threads in any order.  In the
execution whose completion order is `[1, 0, 2]` (the second-constructed
worker finishes first), the recorded names are not in construction order
and the middle entry of the results list reads `"Success"`, not
`"FAIL (1)"`. -/
theorem cli_demo_order_counterexample :
    ((result_info_list demo_runners [1, 0, 2]).map fun t => t.1)
        ≠ ["Process 0", "Process 1", "Process 2"]
    ∧ ((result_info_list demo_runners [1, 0, 2]).get? 1).map (fun t => t.2.1)
        = some "Success" := by
  decide

/-- C8, amended: for the three ungated workers with job result codes
`(0, 1, 0)` and every possible thread-completion order, the CLI run exits
with code 1 (aggregate failure), the results list has exactly 3 entries
whose names are a permutation of the construction order, and the entry of
the second-constructed worker reads exactly `"FAIL (1)"`; when the threads
happen to finish in construction order, the middle entry of the list is
that `"FAIL (1)"` record. -/
theorem cli_demo_scenario (order : List Nat) (h : order.Perm [0, 1, 2]) :
    cli_exit_code demo_runners order = 1
    ∧ (result_info_list demo_runners order).length = 3
    ∧ ((result_info_list demo_runners order).map fun t => t.1).Perm
        ["Process 0", "Process 1", "Process 2"]
    ∧ (∀ t ∈ result_info_list demo_runners order, t.1 = "Process 1" →
        t.2.1 = "FAIL (1)")
    ∧ (order = [0, 1, 2] →
        ((result_info_list demo_runners order).get? 1).map (fun t => t.2.1)
          = some "FAIL (1)") := by
  rcases perm_012_cases order h with rfl | rfl | rfl | rfl | rfl | rfl <;> decide

/-- Witness for `cli_demo_scenario`: the completion order that matches the
construction order. -/
theorem cli_demo_scenario_witness :
    cli_exit_code demo_runners [0, 1, 2] = 1
    ∧ (result_info_list demo_runners [0, 1, 2]).length = 3
    ∧ ((result_info_list demo_runners [0, 1, 2]).map fun t => t.1).Perm
        ["Process 0", "Process 1", "Process 2"]
    ∧ (∀ t ∈ result_info_list demo_runners [0, 1, 2], t.1 = "Process 1" →
        t.2.1 = "FAIL (1)")
    ∧ ([0, 1, 2] = ([0, 1, 2] : List Nat) →
        ((result_info_list demo_runners [0, 1, 2]).get? 1).map (fun t => t.2.1)
          = some "FAIL (1)") :=
  cli_demo_scenario [0, 1, 2] (by decide)

end ParallelProcRunner
